import Mathlib

/-!
Verification of the Grepr API client (internal/client of grepr/grepr-terraform).

This file gives a shallow embedding of the pure decision logic of the client:
error classification (APIError), retry backoff (calculateBackoff), the retry
loop of doRequest, token caching (getToken), token fetching (FetchToken),
job lookup by name (GetJobByName), and the polling loops WaitForState and
WaitForDeletion.  HTTP transport and clocks are abstracted into explicit
parameters (a status function for the server, a trace of poll outcomes, an
integer clock), while the branching logic is translated line by line from the
Go source.  Go machine-integer arithmetic is modelled with explicit
wrapping modulo 2^64 where a claim quantifies over values at which
overflow can occur.
-/

/-! ## APIError (internal/client/client.go) -/

/-- APIError from client.go: an HTTP status code plus the response message
body.  The status code is a Go int, modelled as an unbounded integer. -/
structure APIError where
  statusCode : Int
  message : String
deriving DecidableEq, Repr

/-- Error() renders as in client.go: fmt.Sprintf with the status code and
the raw message. -/
def APIError.Error (e : APIError) : String :=
  "API error (status " ++ toString e.statusCode ++ "): " ++ e.message

/-- IsNotFound from client.go: status == 404. -/
def APIError.IsNotFound (e : APIError) : Bool :=
  e.statusCode == 404

/-- IsConflict from client.go: status == 409. -/
def APIError.IsConflict (e : APIError) : Bool :=
  e.statusCode == 409

/-- IsBadRequest from client.go: status == 400. -/
def APIError.IsBadRequest (e : APIError) : Bool :=
  e.statusCode == 400

/-- IsUnauthorized from client.go: status == 401. -/
def APIError.IsUnauthorized (e : APIError) : Bool :=
  e.statusCode == 401

/-- IsForbidden from client.go: status == 403. -/
def APIError.IsForbidden (e : APIError) : Bool :=
  e.statusCode == 403

/-- IsClientError from client.go: 400 <= status < 500. -/
def APIError.IsClientError (e : APIError) : Bool :=
  400 ≤ e.statusCode && e.statusCode < 500

/-- IsServerError from client.go: status >= 500. -/
def APIError.IsServerError (e : APIError) : Bool :=
  500 ≤ e.statusCode

/-- IsRetryable from client.go: delegates to IsServerError. -/
def APIError.IsRetryable (e : APIError) : Bool :=
  e.IsServerError

/-! ## Backoff (internal/client/client.go) -/

/-- initialRetryDelay from client.go: 100 milliseconds, in nanoseconds
(Go time.Duration counts nanoseconds). -/
def initialRetryDelay : Int := 100000000

/-- maxRetryDelay from client.go: 5 seconds, in nanoseconds. -/
def maxRetryDelay : Int := 5000000000

/-- maxRetries from client.go. -/
def maxRetries : Nat := 3

/-- Two's-complement wrap to a signed 64-bit value, the semantics of Go
int64 (and time.Duration) arithmetic. -/
def wrap64 (x : Int) : Int :=
  (x + 2 ^ 63) % 2 ^ 64 - 2 ^ 63

/-- calculateBackoff from client.go.  The Go expression
initialRetryDelay * time.Duration(1 shifted left by attempt) computes in
int64: the shift of the constant 1 wraps modulo 2^64 (a shift count of 64
or more yields 0), and so does the product. -/
def calculateBackoff (attempt : Nat) : Int :=
  let delay := wrap64 (initialRetryDelay * wrap64 (2 ^ attempt))
  if delay > maxRetryDelay then maxRetryDelay else delay

/-! ## Claim theorems for APIError and calculateBackoff -/

/-- C7: for every status code c, IsBadRequest iff c = 400, IsUnauthorized
iff c = 401, IsForbidden iff c = 403, IsNotFound iff c = 404, IsConflict
iff c = 409, IsClientError iff 400 <= c < 500, IsServerError iff c >= 500,
IsRetryable iff IsServerError, and Error() renders exactly
"API error (status c): message". -/
theorem apiError_predicates_and_error_render (c : Int) (m : String) :
    (APIError.IsBadRequest ⟨c, m⟩ = true ↔ c = 400) ∧
    (APIError.IsUnauthorized ⟨c, m⟩ = true ↔ c = 401) ∧
    (APIError.IsForbidden ⟨c, m⟩ = true ↔ c = 403) ∧
    (APIError.IsNotFound ⟨c, m⟩ = true ↔ c = 404) ∧
    (APIError.IsConflict ⟨c, m⟩ = true ↔ c = 409) ∧
    (APIError.IsClientError ⟨c, m⟩ = true ↔ 400 ≤ c ∧ c < 500) ∧
    (APIError.IsServerError ⟨c, m⟩ = true ↔ 500 ≤ c) ∧
    (APIError.IsRetryable ⟨c, m⟩ = APIError.IsServerError ⟨c, m⟩) ∧
    (APIError.Error ⟨c, m⟩ = "API error (status " ++ toString c ++ "): " ++ m) := by
  refine ⟨?_, ?_, ?_, ?_, ?_, ?_, ?_, rfl, rfl⟩ <;>
    simp [APIError.IsBadRequest, APIError.IsUnauthorized, APIError.IsForbidden,
      APIError.IsNotFound, APIError.IsConflict, APIError.IsClientError,
      APIError.IsServerError, decide_eq_true_iff]

/-- C3 counterexample: at attempt 37 the Go int64 multiplication overflows,
so calculateBackoff(37) is a negative duration, not the capped 5000ms the
formula min(100ms * 2^n, 5000ms) gives. -/
theorem calculateBackoff_overflow_at_37 :
    calculateBackoff 37 ≠ min (initialRetryDelay * 2 ^ 37) maxRetryDelay ∧
    calculateBackoff 37 = -4702848726509551616 := by
  constructor
  · decide
  · decide

set_option maxRecDepth 4000 in
/-- C3 (amended): for every n with 0 <= n <= 36 (so that 100ms * 2^n fits
in int64), calculateBackoff(n) = min(100ms * 2^n, 5000ms); in particular
calculateBackoff(0) = 100ms and calculateBackoff(6), calculateBackoff(10)
are capped at 5000ms. -/
theorem calculateBackoff_eq_min :
    ∀ n : Nat, n ≤ 36 → calculateBackoff n = min (initialRetryDelay * 2 ^ n) maxRetryDelay := by
  decide

/-- Witness for C3: the amended statement applied at n = 6, where the cap
takes effect. -/
theorem calculateBackoff_eq_min_witness :
    calculateBackoff 6 = min (initialRetryDelay * 2 ^ 6) maxRetryDelay :=
  calculateBackoff_eq_min 6 (by decide)

/-! ## doRequest retry loop (internal/client/client.go) -/

/-- One run of the doRequest retry loop against a server described by the
HTTP status it returns on each attempt number (token fetches succeed and
every attempt produces a response; the status alone drives the retry
decision).  fuel counts the loop iterations still allowed by the loop
condition attempt <= maxRetries, so it equals maxRetries + 1 - attempt.
Returns the number of attempts made, paired with some status when a
response is returned with nil error, or none for the fall-through error
return after the loop. -/
def doRequestAux (server : Nat → Int) : Nat → Nat → Nat × Option Int
  | attempt, fuel + 1 =>
    let status := server attempt
    if 500 ≤ status ∧ attempt < maxRetries then
      doRequestAux server (attempt + 1) fuel
    else
      (attempt + 1, some status)
  | attempt, 0 => (attempt, none)

/-- doRequest from client.go: the retry loop entered at attempt 0, the
loop condition allowing maxRetries + 1 = 4 iterations. -/
def doRequest (server : Nat → Int) : Nat × Option Int :=
  doRequestAux server 0 (maxRetries + 1)

lemma doRequestAux_attempts_le (server : Nat → Int) :
    ∀ (fuel attempt : Nat), (doRequestAux server attempt fuel).1 ≤ attempt + fuel := by
  intro fuel
  induction fuel with
  | zero => intro attempt; simp [doRequestAux]
  | succ f ih =>
    intro attempt
    rw [doRequestAux]
    split
    · exact le_trans (ih (attempt + 1)) (by omega)
    · simp

lemma doRequestAux_returns (server : Nat → Int) :
    ∀ (k attempt fuel : Nat), attempt + fuel = maxRetries + 1 → k < fuel →
      (∀ j, attempt ≤ j → j < attempt + k → 500 ≤ server j) →
      (server (attempt + k) < 500 ∨ attempt + k = maxRetries) →
      doRequestAux server attempt fuel = (attempt + k + 1, some (server (attempt + k))) := by
  intro k
  induction k with
  | zero =>
    intro attempt fuel hsum hk _ hstop
    obtain ⟨f, rfl⟩ : ∃ f, fuel = f + 1 := ⟨fuel - 1, by omega⟩
    simp only [Nat.add_zero] at hstop ⊢
    rw [doRequestAux]
    rw [if_neg]
    intro ⟨h500, hlt⟩
    rcases hstop with h | h
    · omega
    · omega
  | succ k ih =>
    intro attempt fuel hsum hk hge hstop
    obtain ⟨f, rfl⟩ : ∃ f, fuel = f + 1 := ⟨fuel - 1, by omega⟩
    rw [doRequestAux]
    rw [if_pos]
    · have h1 : attempt + 1 + f = maxRetries + 1 := by omega
      have h2 : k < f := by omega
      have h3 : ∀ j, attempt + 1 ≤ j → j < attempt + 1 + k → 500 ≤ server j := by
        intro j hj1 hj2
        exact hge j (by omega) (by omega)
      have h4 : server (attempt + 1 + k) < 500 ∨ attempt + 1 + k = maxRetries := by
        have : attempt + 1 + k = attempt + (k + 1) := by omega
        rw [this]; exact hstop
      have := ih (attempt + 1) f h1 h2 h3 h4
      rw [this]
      have : attempt + 1 + k = attempt + (k + 1) := by omega
      rw [this]
    · constructor
      · exact hge attempt (le_refl _) (by omega)
      · omega

/-- C1: doRequest makes at most maxRetries + 1 = 4 attempts; a response
with status < 500 is returned as-is with nil error on the attempt it
arrives (a first-attempt 400 yields exactly 1 attempt; 503, 503, 200
yields exactly 3 attempts and the 200 response); a status >= 500 on the
4th attempt is returned to the caller as the response with nil error. -/
theorem doRequest_retry_behavior :
    (∀ server : Nat → Int, (doRequest server).1 ≤ 4) ∧
    (∀ (server : Nat → Int) (k : Nat), k ≤ 3 →
      (∀ j, j < k → 500 ≤ server j) →
      (server k < 500 ∨ k = 3) →
      doRequest server = (k + 1, some (server k))) := by
  constructor
  · intro server
    have := doRequestAux_attempts_le server (maxRetries + 1) 0
    simpa [doRequest, maxRetries] using this
  · intro server k hk hge hstop
    have h := doRequestAux_returns server k 0 (maxRetries + 1)
      (by simp) (by simp [maxRetries]; omega)
      (by intro j _ hj; exact hge j (by omega))
      (by simpa [maxRetries] using hstop)
    simpa [doRequest] using h

/-- Witness for C1: a server answering 503, 503, 200 yields exactly 3
attempts and the final 200 response (with nil error), and never more than
4 attempts. -/
theorem doRequest_retry_behavior_witness :
    doRequest (fun n => [503, 503, 200].getD n 0) = (3, some 200) ∧
    (doRequest (fun n => [503, 503, 200].getD n 0)).1 ≤ 4 := by
  constructor
  · have h := doRequest_retry_behavior.2 (fun n => [503, 503, 200].getD n 0) 2
      (by omega) (by decide) (by decide)
    simpa using h
  · exact doRequest_retry_behavior.1 _

/-! ## Token caching: getToken and FetchToken (internal/client/client.go) -/

/-- tokenRefreshBuffer from client.go: 60 seconds.  Time is modelled in
whole seconds by unbounded integers. -/
def tokenRefreshBuffer : Int := 60

/-- The token-cache fields of Client that tokenMu guards. -/
structure TokenState where
  accessToken : String
  tokenExpiry : Int
deriving DecidableEq, Repr

/-- Everything getToken returns and leaves behind: the (token, error)
pair, the cache state after the call, and whether FetchToken ran. -/
structure GetTokenOutcome where
  token : String
  err : Option String
  state : TokenState
  fetchCalled : Bool
deriving DecidableEq, Repr

/-- The decoded JSON body of the token endpoint response. -/
structure OAuthTokenResponse where
  accessToken : String
  expiresIn : Int
deriving DecidableEq, Repr

/-- getToken from client.go, run sequentially (the read-locked check and
the post-write-lock double check coincide in a single-threaded run).  now
is the current time in seconds; fetch is the outcome FetchToken would
produce at this moment, either an error or an (accessToken, expiresIn)
pair.  The cached token is served only when it is non-empty and
now + tokenRefreshBuffer is strictly before its expiry; otherwise the
fetch runs, and on success its token is stored with expiry
now + expiresIn before being returned. -/
def getToken (st : TokenState) (now : Int)
    (fetch : Except String (String × Int)) : GetTokenOutcome :=
  if st.accessToken ≠ "" ∧ now + tokenRefreshBuffer < st.tokenExpiry then
    ⟨st.accessToken, none, st, false⟩
  else
    match fetch with
    | .error e => ⟨"", some e, st, true⟩
    | .ok (token, expiresIn) => ⟨token, none, ⟨token, now + expiresIn⟩, true⟩

/-- The response-handling tail of FetchToken from client.go, given the
HTTP status of the token endpoint response and the result of decoding its
body: any status other than 200 fails with a message built from the
status alone, the body never contributing; on 200, a decode failure is
wrapped and success yields the access token and its lifetime in
seconds. -/
def FetchToken (status : Int) (body : Except String OAuthTokenResponse) :
    Except String (String × Int) :=
  if status ≠ 200 then
    .error ("failed to fetch token: status " ++ toString status)
  else
    match body with
    | .error e => .error ("failed to decode token response: " ++ e)
    | .ok r => .ok (r.accessToken, r.expiresIn)

/-! ## Claim theorems for getToken and FetchToken -/

/-- C2 counterexample: with an empty cached token whose recorded expiry is
far in the future (now + 60s is before it), getToken still calls the
token endpoint and returns the fetched token, not the cached one - the
code additionally requires the cached token to be non-empty. -/
theorem getToken_refreshes_despite_future_expiry :
    ((0 : Int) + tokenRefreshBuffer < (1000 : Int)) ∧
    (getToken ⟨"", 1000⟩ 0 (.ok ("tok", 3600))).fetchCalled = true ∧
    (getToken ⟨"", 1000⟩ 0 (.ok ("tok", 3600))).token ≠ (TokenState.mk "" 1000).accessToken := by
  refine ⟨by decide, by decide, by decide⟩

/-- C2 (amended): getToken returns the cached token with no token-endpoint
call whenever the cached token is non-empty and now + 60s is before the
cached expiry; otherwise it refreshes via FetchToken and, on success,
stores the new token with expiry now + expiresIn seconds before returning
that token. -/
theorem getToken_cache_and_refresh :
    (∀ (st : TokenState) (now : Int) (fetch : Except String (String × Int)),
      st.accessToken ≠ "" → now + tokenRefreshBuffer < st.tokenExpiry →
      getToken st now fetch = ⟨st.accessToken, none, st, false⟩) ∧
    (∀ (st : TokenState) (now : Int) (token : String) (expiresIn : Int),
      ¬(st.accessToken ≠ "" ∧ now + tokenRefreshBuffer < st.tokenExpiry) →
      getToken st now (.ok (token, expiresIn)) =
        ⟨token, none, ⟨token, now + expiresIn⟩, true⟩) := by
  constructor
  · intro st now fetch h1 h2
    rw [getToken.eq_def, if_pos ⟨h1, h2⟩]
  · intro st now token expiresIn h
    rw [getToken.eq_def, if_neg h]

/-- Witness for C2: a non-empty token with expiry 1000s is served from
cache at time 0 with no fetch; an expired cache at time 0 stores the
fetched token with expiry 0 + 3600. -/
theorem getToken_cache_and_refresh_witness :
    getToken ⟨"t", 1000⟩ 0 (.error "down") = ⟨"t", none, ⟨"t", 1000⟩, false⟩ ∧
    getToken ⟨"t", 30⟩ 0 (.ok ("u", 3600)) = ⟨"u", none, ⟨"u", 0 + 3600⟩, true⟩ := by
  constructor
  · exact getToken_cache_and_refresh.1 ⟨"t", 1000⟩ 0 (.error "down") (by decide) (by decide)
  · exact getToken_cache_and_refresh.2 ⟨"t", 30⟩ 0 "u" 3600 (by decide)

/-- C10: when the refresh inside getToken fails, getToken returns the
empty token together with that error, and the cached accessToken and
tokenExpiry are left exactly as they were. -/
theorem getToken_failed_refresh_preserves_state
    (st : TokenState) (now : Int) (e : String)
    (h : ¬(st.accessToken ≠ "" ∧ now + tokenRefreshBuffer < st.tokenExpiry)) :
    getToken st now (.error e) = ⟨"", some e, st, true⟩ := by
  rw [getToken.eq_def, if_neg h]

/-- Witness for C10: a stale cached token survives a failed refresh
untouched. -/
theorem getToken_failed_refresh_preserves_state_witness :
    getToken ⟨"old", 50⟩ 100 (.error "boom") = ⟨"", some "boom", ⟨"old", 50⟩, true⟩ :=
  getToken_failed_refresh_preserves_state ⟨"old", 50⟩ 100 "boom" (by decide)

/-- C9: for every token-endpoint response with status other than 200,
FetchToken fails with the message "failed to fetch token: status c", and
the outcome is identical for every response body. -/
theorem fetchToken_non200_message
    (status : Int) (body bodyAlt : Except String OAuthTokenResponse)
    (h : status ≠ 200) :
    FetchToken status body = .error ("failed to fetch token: status " ++ toString status) ∧
    FetchToken status body = FetchToken status bodyAlt := by
  rw [FetchToken.eq_def, if_pos h, FetchToken.eq_def, if_pos h]
  exact ⟨rfl, rfl⟩

/-- Witness for C9: a 503 token response yields the status-only message
whatever the body held. -/
theorem fetchToken_non200_message_witness :
    FetchToken 503 (.error "x") = .error ("failed to fetch token: status " ++ toString (503 : Int)) ∧
    FetchToken 503 (.error "x") = FetchToken 503 (.ok ⟨"secret", 9⟩) :=
  fetchToken_non200_message 503 (.error "x") (.ok ⟨"secret", 9⟩) (by decide)


/-! ## Job states (internal/resources/pipeline/resource.go) -/

/-- JobState aliases generated.ReadJobState, an oapi-codegen string type,
so it is a transparent alias of String as in the Go source. -/
abbrev JobState : Type := String

/-- Modelled from the spec: the generated package (absent from the source
tree) defines ReadJobStateRUNNING as the string RUNNING, the stable state
named in configuration and wait messages. -/
def JobStateRunning : JobState := "RUNNING"

/-- Modelled from the spec: the generated stable state STOPPED. -/
def JobStateStopped : JobState := "STOPPED"

/-- Modelled from the spec: the generated transitional state PENDING. -/
def JobStatePending : JobState := "PENDING"

/-- Modelled from the spec: the generated terminal state FINISHED. -/
def JobStateFinished : JobState := "FINISHED"

/-- Modelled from the spec: the generated terminal state FAILED. -/
def JobStateFailed : JobState := "FAILED"

/-- Modelled from the spec: the generated terminal state CANCELLED. -/
def JobStateCancelled : JobState := "CANCELLED"

/-- Modelled from the spec: the generated terminal state DELETED. -/
def JobStateDeleted : JobState := "DELETED"

/-- IsTerminal from resource.go: the switch over the four terminal
states. -/
def IsTerminal (s : JobState) : Bool :=
  if s = JobStateFinished ∨ s = JobStateFailed ∨ s = JobStateCancelled ∨ s = JobStateDeleted
  then true else false

/-- IsStable from resource.go: RUNNING and STOPPED are stable, and any
terminal state is. -/
def IsStable (s : JobState) : Bool :=
  if s = JobStateRunning ∨ s = JobStateStopped then true else IsTerminal s

/-- A job as the polling loops see it: its API id and current state. -/
structure Job where
  Id : String
  State : JobState
deriving DecidableEq, Repr

/-! ## Polling loops (internal/client/jobs.go) -/

/-- An error value returned by GetJob: either a typed APIError (the
type-assertion in the polling loops succeeds on it) or any other error,
carried as its message string. -/
inductive GoError where
  | api (e : APIError)
  | str (s : String)
deriving DecidableEq, Repr

instance : DecidableEq (Except GoError Job) := fun a b =>
  match a, b with
  | .error x, .error y =>
    if h : x = y then .isTrue (h ▸ rfl)
    else .isFalse (by intro hc; injection hc; contradiction)
  | .error _, .ok _ => .isFalse (by intro hc; injection hc)
  | .ok _, .error _ => .isFalse (by intro hc; injection hc)
  | .ok x, .ok y =>
    if h : x = y then .isTrue (h ▸ rfl)
    else .isFalse (by intro hc; injection hc; contradiction)

/-- One loop iteration of a polling loop as the environment drives it: at
the top of the iteration either the deadline has passed (timedOut), or
GetJob runs and yields a job or an error. -/
inductive PollStep where
  | timedOut
  | poll (r : Except GoError Job)
deriving DecidableEq, Repr

/-- WaitForState from jobs.go over a trace of loop iterations: each
iteration checks the deadline, then polls; 404 is success when waiting
for DELETED and an error otherwise; reaching the desired state returns
the job with nil error; a different terminal state fails fast; any other
state sleeps and loops.  Returns the (job, error) pair of Go.  An
exhausted trace (never produced by a real run, whose deadline eventually
passes) answers (none, none). -/
def WaitForState (id : String) (desiredState : JobState) :
    List PollStep → Option Job × Option GoError
  | [] => (none, none)
  | PollStep.timedOut :: _ =>
    (none, some (.str ("timeout waiting for job " ++ id ++ " to reach state " ++ desiredState)))
  | PollStep.poll (.error e) :: _ =>
    match e with
    | .api a =>
      if a.IsNotFound then
        if desiredState = JobStateDeleted then (none, none)
        else (none, some (.api a))
      else (none, some (.api a))
    | .str s => (none, some (.str s))
  | PollStep.poll (.ok job) :: rest =>
    if job.State = desiredState then (some job, none)
    else if IsTerminal job.State = true ∧ job.State ≠ desiredState then
      (some job,
        some (.str ("job " ++ id ++ " reached terminal state " ++ job.State
          ++ " instead of " ++ desiredState)))
    else WaitForState id desiredState rest

/-- WaitForDeletion from jobs.go over a trace of loop iterations: a 404
read is success, any other error propagates, a DELETED job is success,
anything else sleeps and loops.  Returns the Go error, none meaning nil.
An exhausted trace answers none. -/
def WaitForDeletion (id : String) : List PollStep → Option GoError
  | [] => none
  | PollStep.timedOut :: _ =>
    some (.str ("timeout waiting for job " ++ id ++ " to be deleted"))
  | PollStep.poll (.error e) :: _ =>
    match e with
    | .api a => if a.IsNotFound then none else some (.api a)
    | .str s => some (.str s)
  | PollStep.poll (.ok job) :: rest =>
    if job.State = JobStateDeleted then none
    else WaitForDeletion id rest

/-- A poll observation that makes WaitForState sleep and loop: a job that
is neither in the desired state nor in a terminal one. -/
def ContinuesWait (desiredState : JobState) (step : PollStep) : Prop :=
  ∃ j, step = PollStep.poll (.ok j) ∧ j.State ≠ desiredState ∧ IsTerminal j.State = false

/-- A poll observation that makes WaitForDeletion sleep and loop: a job
whose state is not DELETED. -/
def ContinuesDeletionWait (step : PollStep) : Prop :=
  ∃ j, step = PollStep.poll (.ok j) ∧ j.State ≠ JobStateDeleted

lemma waitForState_skip (id : String) (desiredState : JobState) :
    ∀ (pre tr : List PollStep), (∀ step ∈ pre, ContinuesWait desiredState step) →
      WaitForState id desiredState (pre ++ tr) = WaitForState id desiredState tr := by
  intro pre
  induction pre with
  | nil => intro tr _; rfl
  | cons hd tl ih =>
    intro tr hc
    obtain ⟨j, hhd, hne, hnt⟩ := hc hd (by simp)
    subst hhd
    rw [List.cons_append, WaitForState]
    rw [if_neg hne, if_neg (by simp [hnt])]
    exact ih tr (fun x hx => hc x (by simp [hx]))

lemma waitForDeletion_skip (id : String) :
    ∀ (pre tr : List PollStep), (∀ step ∈ pre, ContinuesDeletionWait step) →
      WaitForDeletion id (pre ++ tr) = WaitForDeletion id tr := by
  intro pre
  induction pre with
  | nil => intro tr _; rfl
  | cons hd tl ih =>
    intro tr hc
    obtain ⟨j, hhd, hne⟩ := hc hd (by simp)
    subst hhd
    rw [List.cons_append, WaitForDeletion, if_neg hne]
    exact ih tr (fun x hx => hc x (by simp [hx]))

/-! ## GetJobByName (internal/client/jobs.go) -/

/-- The paginated list response ItemsCollectionReadJob: Items is a Go
pointer to a slice, so a missing items array is none. -/
structure JobsResponse where
  Items : Option (List Job)
deriving DecidableEq, Repr

/-- The item-selection logic of GetJobByName from jobs.go, applied to a
successfully decoded list response: a nil or empty items array yields
(nil, nil); otherwise the first item of the array is returned with nil
error. -/
def GetJobByName (resp : JobsResponse) : Option Job × Option GoError :=
  match resp.Items with
  | none => (none, none)
  | some items => if items.length = 0 then (none, none) else (items.head?, none)

/-! ## Claim theorems for the jobs layer -/

/-- C5: GetJobByName returns a nil job and a nil error when the list
response carries a missing or empty items array, and the first item of
the array with nil error when it is non-empty. -/
theorem getJobByName_first_or_none :
    (∀ resp : JobsResponse, resp.Items = none ∨ resp.Items = some [] →
      GetJobByName resp = (none, none)) ∧
    (∀ (j : Job) (tl : List Job), GetJobByName ⟨some (j :: tl)⟩ = (some j, none)) := by
  constructor
  · intro resp h
    rcases h with h | h <;> simp [GetJobByName.eq_def, h]
  · intro j tl
    rw [GetJobByName.eq_def]
    simp

/-- Witness for C5: a missing array, an empty array, and a two-element
array. -/
theorem getJobByName_first_or_none_witness :
    GetJobByName ⟨none⟩ = (none, none) ∧
    GetJobByName ⟨some []⟩ = (none, none) ∧
    GetJobByName ⟨some [⟨"a", JobStatePending⟩, ⟨"b", JobStateRunning⟩]⟩
      = (some ⟨"a", JobStatePending⟩, none) :=
  ⟨getJobByName_first_or_none.1 ⟨none⟩ (Or.inl rfl),
   getJobByName_first_or_none.1 ⟨some []⟩ (Or.inr rfl),
   getJobByName_first_or_none.2 ⟨"a", JobStatePending⟩ [⟨"b", JobStateRunning⟩]⟩

/-- C4: when waiting for the DELETED state, a poll that fails with an
APIError whose IsNotFound holds makes WaitForState return a nil job and a
nil error, whatever continuing polls preceded it and whatever would have
followed. -/
theorem waitForState_notFound_deleted_success
    (id : String) (a : APIError) (pre rest : List PollStep)
    (hnf : a.IsNotFound = true)
    (hpre : ∀ step ∈ pre, ContinuesWait JobStateDeleted step) :
    WaitForState id JobStateDeleted (pre ++ PollStep.poll (.error (.api a)) :: rest)
      = (none, none) := by
  rw [waitForState_skip id JobStateDeleted pre _ hpre, WaitForState]
  simp [hnf]

/-- Witness for C4: a single 404 poll while waiting for DELETED. -/
theorem waitForState_notFound_deleted_success_witness :
    WaitForState "job-1" JobStateDeleted [PollStep.poll (.error (.api ⟨404, "not found"⟩))]
      = (none, none) :=
  waitForState_notFound_deleted_success "job-1" ⟨404, "not found"⟩ [] []
    (by decide) (by simp)

/-- C6: a poll that observes a job in a terminal state different from the
desired one makes WaitForState stop at once, returning that job together
with a non-nil error describing the mismatch, regardless of any steps
that would have followed (no further polling, no timeout error). -/
theorem waitForState_terminal_mismatch
    (id : String) (desiredState : JobState) (j : Job) (pre rest : List PollStep)
    (hterm : IsTerminal j.State = true) (hne : j.State ≠ desiredState)
    (hpre : ∀ step ∈ pre, ContinuesWait desiredState step) :
    WaitForState id desiredState (pre ++ PollStep.poll (.ok j) :: rest)
      = (some j, some (.str ("job " ++ id ++ " reached terminal state " ++ j.State
          ++ " instead of " ++ desiredState))) := by
  rw [waitForState_skip id desiredState pre _ hpre, WaitForState]
  rw [if_neg hne, if_pos ⟨hterm, hne⟩]

/-- Witness for C6: waiting for RUNNING, one PENDING poll then a FAILED
job stops the wait with the mismatch error even though more steps were
available. -/
theorem waitForState_terminal_mismatch_witness :
    WaitForState "p7" JobStateRunning
        ([PollStep.poll (.ok ⟨"p7", JobStatePending⟩)]
          ++ PollStep.poll (.ok ⟨"p7", JobStateFailed⟩) :: [PollStep.timedOut])
      = (some ⟨"p7", JobStateFailed⟩,
          some (.str ("job " ++ "p7" ++ " reached terminal state " ++ JobStateFailed
            ++ " instead of " ++ JobStateRunning))) :=
  waitForState_terminal_mismatch "p7" JobStateRunning ⟨"p7", JobStateFailed⟩
    [PollStep.poll (.ok ⟨"p7", JobStatePending⟩)] [PollStep.timedOut]
    (by decide) (by decide)
    (by
      intro step hstep
      simp at hstep
      subst hstep
      exact ⟨⟨"p7", JobStatePending⟩, rfl, by decide, by decide⟩)

/-- C8: once the deadline has passed at the top of a loop iteration,
WaitForState returns a nil job and exactly the message
"timeout waiting for job id to reach state state", and WaitForDeletion
returns exactly "timeout waiting for job id to be deleted". -/
theorem wait_timeout_messages :
    (∀ (id : String) (desiredState : JobState) (pre rest : List PollStep),
      (∀ step ∈ pre, ContinuesWait desiredState step) →
      WaitForState id desiredState (pre ++ PollStep.timedOut :: rest)
        = (none, some (.str ("timeout waiting for job " ++ id
            ++ " to reach state " ++ desiredState)))) ∧
    (∀ (id : String) (pre rest : List PollStep),
      (∀ step ∈ pre, ContinuesDeletionWait step) →
      WaitForDeletion id (pre ++ PollStep.timedOut :: rest)
        = some (.str ("timeout waiting for job " ++ id ++ " to be deleted"))) := by
  constructor
  · intro id desiredState pre rest hpre
    rw [waitForState_skip id desiredState pre _ hpre, WaitForState]
  · intro id pre rest hpre
    rw [waitForDeletion_skip id pre _ hpre, WaitForDeletion]

/-- Witness for C8: a PENDING poll then an expired deadline while waiting
for RUNNING, and an immediately expired deadline while waiting for
deletion. -/
theorem wait_timeout_messages_witness :
    WaitForState "p1" JobStateRunning
        ([PollStep.poll (.ok ⟨"p1", JobStatePending⟩)] ++ PollStep.timedOut :: [])
      = (none, some (.str ("timeout waiting for job " ++ "p1"
          ++ " to reach state " ++ JobStateRunning))) ∧
    WaitForDeletion "j2" ([] ++ PollStep.timedOut :: [])
      = some (.str ("timeout waiting for job " ++ "j2" ++ " to be deleted")) :=
  ⟨wait_timeout_messages.1 "p1" JobStateRunning
      [PollStep.poll (.ok ⟨"p1", JobStatePending⟩)] []
      (by
        intro step hstep
        simp at hstep
        subst hstep
        exact ⟨⟨"p1", JobStatePending⟩, rfl, by decide, by decide⟩),
   wait_timeout_messages.2 "j2" [] [] (by simp)⟩
